import Mathlib

/-!
# Verification of the VDrift incremental track loader

Shallow embedding of `src/trackloader.cpp` and `src/graphics/model.cpp`
(the incremental track-asset loading pipeline of VDrift), together with
theorems settling the specification claims about it.

Machine integers are modelled as `Int`/`Nat`; `float` values that only
flow through comparisons and exact additions are modelled as `ℚ` with the
relevant IEEE single-precision constants written exactly.  File streams
are modelled as lists of whitespace-separated tokens (the `#`-comment
skipping of the source's `get` helper is modelled by taking the stream to
be the comment-stripped token list).
-/

namespace Vdrift

/-! ## Surface index policy (trackloader.cpp, LoadShape / AddObject)

`LoadShape` (modern format) reads the authored `surface` index into an
`int` and replaces it by `0` when `surface >= (int)data.surfaces.size()`,
then accesses `data.surfaces[surface]`.  `AddObject` (legacy format)
instead asserts `object.surface >= 0 && object.surface < (int)data.surfaces.size()`.
-/

/-- The modern-format surface index adjustment of `LoadShape`
(trackloader.cpp lines 330–335): `if (surface >= (int)size) surface = 0`. -/
def modernSurfaceIndex (authored : Int) (nsurf : Nat) : Int :=
  if authored ≥ (nsurf : Int) then 0 else authored

/-- The legacy-format assertion of `AddObject` (trackloader.cpp line 756):
`object.surface >= 0 && object.surface < (int)data.surfaces.size()`. -/
def legacySurfaceAssert (authored : Int) (nsurf : Nat) : Prop :=
  0 ≤ authored ∧ authored < (nsurf : Int)

instance (a : Int) (n : Nat) : Decidable (legacySurfaceAssert a n) :=
  inferInstanceAs (Decidable (_ ∧ _))

/-- `data.surfaces[i]` is an in-bounds access of the surface table. -/
def surfaceInBounds (idx : Int) (nsurf : Nat) : Prop :=
  0 ≤ idx ∧ idx < (nsurf : Int)

instance (a : Int) (n : Nat) : Decidable (surfaceInBounds a n) :=
  inferInstanceAs (Decidable (_ ∧ _))

/-- An authored surface index is out of range for a table of `nsurf`
surfaces when it is not a valid position of that table. -/
def surfaceOutOfRange (authored : Int) (nsurf : Nat) : Prop :=
  ¬ surfaceInBounds authored nsurf

instance (a : Int) (n : Nat) : Decidable (surfaceOutOfRange a n) :=
  inferInstanceAs (Decidable (¬ _))

/-! ## Lap-section patch index remap (trackloader.cpp, LoadLapSections)

Lines 1016–1024: `assert(patchid < num_patches); if (data.reverse)
patchid = num_patches - patchid;` then `i->GetPatches()[patchid]`. -/

/-- The patch-index remap of `LoadLapSections`: on a reversed track the
authored id `p` becomes `num_patches - p`, otherwise it is unchanged. -/
def remapPatchId (reverse : Bool) (patchid : Int) (numPatches : Nat) : Int :=
  if reverse then (numPatches : Int) - patchid else patchid

/-- `GetPatches()[i]` is an in-bounds access of the patch vector. -/
def patchInBounds (idx : Int) (numPatches : Nat) : Prop :=
  0 ≤ idx ∧ idx < (numPatches : Int)

instance (a : Int) (n : Nat) : Decidable (patchInBounds a n) :=
  inferInstanceAs (Decidable (_ ∧ _))

/-! ## Modern-format body construction (trackloader.cpp, LoadBody / LoadNode)

`LoadBody` does `body.collidable = cfg.get("mass", body.mass);` and calls
`LoadShape` exactly when `body.collidable` is set; `PTree::get` leaves the
output untouched and returns `false` when the key is absent.  `LoadNode`
creates a physics collision object for a static body (`mass < 1E-3`) only
when `body.collidable` holds, and always creates one in the massive branch. -/

/-- The slice of a modern-format `body` config section that decides
collidability: whether a `mass` key is present and its value. -/
structure BodySection where
  hasMass : Bool
  massVal : ℚ

/-- Modelled from the spec: the `BODY` defaults of `trackloader.h` (the
header is not part of the sources); the spec's Data Model makes a body
non-collidable with static sentinel mass by default, so `mass = 0` and
`collidable = false`.  `shapeBuilt` records whether `LoadShape` ran. -/
structure BODY where
  mass : ℚ
  collidable : Bool
  shapeBuilt : Bool

/-- The collidability part of `LoadBody` (trackloader.cpp lines 434–438):
`body.collidable = cfg.get("mass", body.mass); if (body.collidable)
LoadShape(...)`. -/
def loadBody (sec : BodySection) : BODY :=
  let mass := if sec.hasMass then sec.massVal else 0
  let collidable := sec.hasMass
  { mass := mass, collidable := collidable, shapeBuilt := collidable }

/-- Whether `LoadNode` (trackloader.cpp lines 522–612) creates a physics
collision object for the body: in the static branch (`mass < 1E-3`) only
when `body.collidable`, in the massive branch always (both the
dynamic-objects and the frozen sub-branch push a physics object). -/
def loadNodeMakesCollision (b : BODY) : Bool :=
  if b.mass < 1/1000 then b.collidable else true

/-! ## Legacy object-list stream (trackloader.cpp, `get` / BeginOld /
CalculateNumOld / ContinueOld)

The static helper `get` (lines 619–639) extracts one whitespace-separated
token (skipping `#` comment lines; the stream is modelled as the
comment-stripped token list) and returns `false` on an exhausted stream.
Parsing a token into an `int` via `stringstream` leaves the output
unchanged when the token is not numeric, and `get` still returns `true`. -/

/-- One `get` on a token stream: the extracted token and the rest. -/
def getToken : List String → Option (String × List String)
  | [] => none
  | t :: ts => some (t, ts)

/-- `expected_params`, initialized to `17` in the `LOADER` constructor
(line 109) and never changed. -/
def expected_params : Int := 17

/-- `min_params`, initialized to `14` in the `LOADER` constructor
(line 110); it is referenced nowhere else in the source. -/
def min_params : Int := 14

/-- Decimal digit value of a character, when it is a digit. -/
def charDigit (c : Char) : Option Nat :=
  if 48 ≤ c.toNat ∧ c.toNat ≤ 57 then some (c.toNat - 48) else none

/-- Accumulating decimal parse of a character list; fails at the first
non-digit. -/
def parseDigits : List Char → Nat → Option Nat
  | [], acc => some acc
  | c :: cs, acc =>
    match charDigit c with
    | some d => parseDigits cs (acc * 10 + d)
    | none => none

/-- Parse a whole token as a decimal integer with an optional leading
minus sign; at least one digit is required. -/
def parseInt : String → Option Int
  | s =>
    match s.data with
    | [] => none
    | '-' :: [] => none
    | '-' :: cs => (parseDigits cs 0).map (fun n => -(n : Int))
    | cs => (parseDigits cs 0).map (fun n => (n : Int))

/-- `stringstream >> int` semantics of `get`: a non-numeric token leaves
the previous value in place. -/
def parseIntToken (s : String) (old : Int) : Int :=
  (parseInt s).getD old

/-- `BeginOld` (lines 661–679) up to its header check: read
`params_per_object` from the stream (member initialized to `17`), fail if
the stream is exhausted, fail with a diagnostic if the value differs from
`expected_params`; returns the acceptance flag and the resulting
`params_per_object`. -/
def beginOld (f : List String) (params0 : Int) : Bool × Int :=
  match getToken f with
  | none => (false, params0)
  | some (t, _) =>
    let p := parseIntToken t params0
    if p ≠ expected_params then (false, p) else (true, p)

/-- The number of trailing junk fields the `ContinueOld` discard loop
reads per record: `for (i = 0; i < params_per_object - expected_params; i++)`
(lines 804–807). -/
def discardCount (params : Int) : Nat :=
  (params - expected_params).toNat

/-- Tokens a `ContinueOld` record consumes after the model name: the 16
fixed fields (texture … surface) plus the trailing discard loop. -/
def recordTailLen (params : Int) : Nat :=
  16 + discardCount params

/-- The record-counting loop of `CalculateNumOld` (lines 641–659): while a
token can be read, read `params_per_object - 1` further tokens (each `get`
consuming at most one token, silently stopping at end of stream) and count
one object. -/
def countRecords : List String → Int → Nat
  | [], _ => 0
  | _ :: ts, params => 1 + countRecords (ts.drop (params - 1).toNat) params
termination_by f _ => f.length
decreasing_by
  simp only [List.length_drop, List.length_cons]
  omega

/-- `CalculateNumOld` (lines 641–659): re-open the list file, read the
declared per-object field count into a local variable (uninitialized in
the source when the token is non-numeric; modelled with fallback `0`, a
case outside every claim), then count records. -/
def calculateNumOld (f : List String) : Nat :=
  match getToken f with
  | none => 0
  | some (t, ts) => countRecords ts (parseIntToken t 0)

/-- One `ContinueOld` invocation's stream effect (lines 776–807): read the
model name — end of stream signals no-more-work `(false, false)` — then
read the 16 fixed fields and the trailing junk fields. -/
def continueOldStep (f : List String) (params : Int) : Option (List String) :=
  match getToken f with
  | none => none
  | some (_, ts) => some (ts.drop (recordTailLen params))

/-- The number of records consumed by invoking `ContinueOld` repeatedly
until it signals no-more-work. -/
def legacySteps : List String → Int → Nat
  | [], _ => 0
  | _ :: ts, params => 1 + legacySteps (ts.drop (recordTailLen params)) params
termination_by f _ => f.length
decreasing_by
  simp only [List.length_drop, List.length_cons]
  omega

/-! ## Modern-format stepping (trackloader.cpp, Begin / Continue)

`Begin` (lines 274–290) sets `numobjects = nodes->size()` and an iterator
at the front; each `Continue` (lines 292–307) processes the next node via
`LoadNode`, returning `(false, false)` at the end, `(true, false)` when
`LoadNode` fails, and `(false, true)` otherwise. -/

/-- Driving `Continue` until no-more-work: returns the number of
invocations that processed a node (returned `(false, true)`) and whether
an invocation signalled an error (`(true, false)`), which stops the
drive.  `loadNode` abstracts `LoadNode`'s success. -/
def continueRun {α : Type} (loadNode : α → Bool) : List α → Nat × Bool
  | [] => (0, false)
  | n :: ts =>
    if loadNode n then
      let r := continueRun loadNode ts
      (r.1 + 1, r.2)
    else (0, true)

/-! ## BeginLoad control flow (trackloader.cpp, BeginLoad, lines 133–187)

Each sub-step's failure condition, from the source: `LoadSurfaces` fails
iff `surfaces.txt` cannot be opened (lines 847–855); `LoadRoads` fails iff
`roads.trk` cannot be opened (lines 903–913) and always succeeds
otherwise; `CreateRacingLines` always returns `true` (lines 926–945);
`track.txt` failing to open aborts; `LoadStartPositions` (lines 947–995)
and `LoadLapSections` (lines 997–1093) return `true` on every path;
`BeginObjectLoad` may fail.  The stream-open outcomes form the
environment. -/

/-- Diagnostic messages of `BeginLoad` relevant to the claims. -/
inductive LogMsg where
  /-- info: "No Surfaces File. Continuing with standard surfaces" -/
  | surfacesMissing
  /-- error (from `LoadRoads`): "Error opening roads file" -/
  | roadsOpenError
  /-- error: "Error during road loading; continuing with an unsmoothed track" -/
  | roadError
  /-- error: "Can't find track configfile" -/
  | trackCfgMissing
deriving DecidableEq

/-- The environment of one `BeginLoad` run: which streams open and whether
`BeginObjectLoad` succeeds. -/
structure LoadEnv where
  surfacesOpen : Bool
  roadsOpen : Bool
  trackCfgOpen : Bool
  beginObjectOk : Bool

/-- `LoadSurfaces` returns `false` exactly when the surfaces file stream
cannot be opened. -/
def loadSurfaces (env : LoadEnv) : Bool := env.surfacesOpen

/-- `LoadRoads` returns `false` exactly when the roads file stream cannot
be opened, logging to the error stream; on an opened stream it always
returns `true`. -/
def loadRoads (env : LoadEnv) : Bool := env.roadsOpen

/-- `CreateRacingLines` returns `true` unconditionally. -/
def createRacingLines : Bool := true

/-- The observable outcome of `BeginLoad`. -/
structure BeginLoadResult where
  ok : Bool
  roadsCleared : Bool
  log : List LogMsg

/-- `BeginLoad` (lines 133–187), with the sub-steps' failure conditions
inlined per the source: a surfaces failure logs and continues; a roads
failure logs and clears `data.roads` and continues; `CreateRacingLines`
failure, a missing `track.txt`, `LoadStartPositions`/`LoadLapSections`
failure and `BeginObjectLoad` failure abort (the middle three cannot occur
— those functions return `true` on every path). -/
def beginLoad (env : LoadEnv) : BeginLoadResult :=
  let log1 : List LogMsg :=
    if loadSurfaces env then [] else [LogMsg.surfacesMissing]
  let roadsFailed := !(loadRoads env)
  let log2 :=
    if roadsFailed then log1 ++ [LogMsg.roadsOpenError, LogMsg.roadError] else log1
  if !createRacingLines then ⟨false, roadsFailed, log2⟩
  else if !env.trackCfgOpen then ⟨false, roadsFailed, log2 ++ [LogMsg.trackCfgMissing]⟩
  else if !env.beginObjectOk then ⟨false, roadsFailed, log2⟩
  else ⟨true, roadsFailed, log2⟩

/-- The environment of C1's scenario: every stream opens and the object
probe succeeds, except that the roads file cannot be opened. -/
def roadsFailEnv : LoadEnv :=
  { surfacesOpen := true, roadsOpen := false, trackCfgOpen := true, beginObjectOk := true }

/-! ## Lap distance accumulation (trackloader.cpp, LoadLapSections, lines 1079–1090)

The patches of the strip are an arena of `N` patches; `next_patch` is the
successor link (`none` models a null pointer) and `length` the patch
length.  Patch lengths are accumulated with exact `ℚ` arithmetic. -/

/-- Following `next_patch` links `k` times. -/
def nextIter {N : Nat} (next : Fin N → Option (Fin N)) :
    Option (Fin N) → Nat → Option (Fin N)
  | s, 0 => s
  | none, _ + 1 => none
  | some i, k + 1 => nextIter next (next i) k

/-- The `while (curr_patch && curr_patch != start_patch)` loop with
explicit fuel: at each iteration the current patch's `dist_from_start` is
assigned `total` and `total` grows by the patch's `length`.  Returns the
list of assigned values in walk order and the final `curr_patch`. -/
def lapWalk {N : Nat} (next : Fin N → Option (Fin N)) (len : Fin N → ℚ)
    (start : Fin N) : Nat → Option (Fin N) → ℚ → List ℚ × Option (Fin N)
  | 0, curr, _ => ([], curr)
  | _ + 1, none, _ => ([], none)
  | fuel + 1, some i, total =>
    if i = start then ([], some i)
    else
      let r := lapWalk next len start fuel (next i) (total + len i)
      (total :: r.1, r.2)

/-- The full accumulation pass: `start_patch->dist_from_start = 0`, then
the walk starts at `start_patch->next_patch` with
`total_dist = start_patch->length`.  Run with fuel `N`; result: all
assigned `dist_from_start` values in order (the lap-zero patch's `0`
first) and the final `curr_patch`. -/
def lapDistances {N : Nat} (next : Fin N → Option (Fin N)) (len : Fin N → ℚ)
    (start : Fin N) : List ℚ × Option (Fin N) :=
  let r := lapWalk next len start N (next start) (len start)
  (0 :: r.1, r.2)

/-- A concrete two-patch ring used as the C3 witness input. -/
def ringNextTwo : Fin 2 → Option (Fin 2) :=
  fun i => some ⟨1 - i.val, by omega⟩

/-- Unit patch lengths for the C3 witness input. -/
def ringLenTwo : Fin 2 → ℚ := fun _ => 1

/-! ## Mesh metrics (model.cpp, GenerateMeshMetrics / GetSize / GetCenter)

`GenerateMeshMetrics` (lines 347–375) scans the vertex positions with
componentwise comparisons only, so the scan is modelled exactly over `ℚ`;
the initialization constants are the exact values of the IEEE
single-precision `std::numeric_limits<float>::max()` and
`std::numeric_limits<float>::min()` — the latter is the smallest positive
normal float, not the lowest float. -/

/-- Exact value of `std::numeric_limits<float>::max()`. -/
def flt_max : ℚ := (2 ^ 24 - 1) * 2 ^ 104

/-- Exact value of `std::numeric_limits<float>::min()`: the smallest
positive normal single-precision float, `2^(-126)`. -/
def flt_min : ℚ := 1 / 2 ^ 126

/-- A vertex position (three float components, modelled exactly). -/
structure Vec3 where
  x : ℚ
  y : ℚ
  z : ℚ
deriving DecidableEq

/-- One iteration of the vertex scan (model.cpp lines 359–368): for each
component, `if (v > maxv) maxv = v; if (v < minv) minv = v`.  State is
`(minv, maxv)`. -/
def metricsStep (mm : Vec3 × Vec3) (v : Vec3) : Vec3 × Vec3 :=
  (⟨if v.x < mm.1.x then v.x else mm.1.x,
    if v.y < mm.1.y then v.y else mm.1.y,
    if v.z < mm.1.z then v.z else mm.1.z⟩,
   ⟨if v.x > mm.2.x then v.x else mm.2.x,
    if v.y > mm.2.y then v.y else mm.2.y,
    if v.z > mm.2.z then v.z else mm.2.z⟩)

/-- `GenerateMeshMetrics`: fold the scan over all vertices starting from
`minv = {FLT_MAX, FLT_MAX, FLT_MAX}` and
`maxv = {FLT_MIN, FLT_MIN, FLT_MIN}` (lines 349–352), returning
`(min, max)`. -/
def generateMeshMetrics (verts : List Vec3) : Vec3 × Vec3 :=
  verts.foldl metricsStep (⟨flt_max, flt_max, flt_max⟩, ⟨flt_min, flt_min, flt_min⟩)

/-- `MODEL::GetSize` (model.cpp lines 388–391): `max - min`. -/
def getSize (mm : Vec3 × Vec3) : Vec3 :=
  ⟨mm.2.x - mm.1.x, mm.2.y - mm.1.y, mm.2.z - mm.1.z⟩

/-- `MODEL::GetCenter` (model.cpp lines 393–396): `(max + min) * 0.5`. -/
def getCenter (mm : Vec3 × Vec3) : Vec3 :=
  ⟨(mm.2.x + mm.1.x) / 2, (mm.2.y + mm.1.y) / 2, (mm.2.z + mm.1.z) / 2⟩

/-- The claim's reference definition (for the refinement comparison): the
componentwise maximum over all of the mesh's vertex positions. -/
def specVertexMax : List Vec3 → Option Vec3
  | [] => none
  | v :: vs =>
    some (vs.foldl (fun a b => ⟨max a.x b.x, max a.y b.y, max a.z b.z⟩) v)

/-- The C5 failing input: a mesh consisting of one vertex with all
components negative. -/
def badVertex : Vec3 := ⟨-1, -2, -3⟩

/-! ## Aggressive combining (trackloader.cpp, ContinueOld lines 823–835,
ContinueLoad lines 202–217)

The combining map `combined` is keyed by texture name; an entry stores the
accumulated `OBJECT`, of which the model's vertex count and the `cached`
flag matter here.  `cget tex` models `content.get(model, dir, tex)` —
whether the content cache already holds a mesh under that name — and
`csize tex` that cached mesh's vertex count.  Modelled from the spec:
`VERTEXARRAY::operator+` (its source is not among the files) is additive
vertex-array concatenation without deduplication, so vertex counts add. -/

/-- One aggressive-combining step of `ContinueOld` on the map: if the key
has an uncached entry, merge by vertex-array concatenation
(`SetVertexArray(old + new)`); otherwise store the incoming object, whose
model is replaced by the cached mesh when `content.get` hits. -/
def combineStep (cget : String → Bool) (csize : String → Nat)
    (m : String → Option (Nat × Bool)) (tex : String) (nv : Nat) :
    String → Option (Nat × Bool) :=
  match m tex with
  | some (c, false) => fun k => if k = tex then some (c + nv, false) else m k
  | _ =>
    let cached := cget tex
    let stored := if cached then csize tex else nv
    fun k => if k = tex then some (stored, cached) else m k

/-- Feeding a whole legacy object sequence (texture key and vertex count
per object) through the combining map, starting from the empty map. -/
def combineRun (cget : String → Bool) (csize : String → Nat)
    (objs : List (String × Nat)) : String → Option (Nat × Bool) :=
  objs.foldl (fun m o => combineStep cget csize m o.1 o.2) (fun _ => none)

/-- The total vertex count of the objects carrying texture key `k`. -/
def sumVertsFor (k : String) (objs : List (String × Nat)) : Nat :=
  ((objs.filter (fun o => o.1 = k)).map (fun o => o.2)).sum

/-! ## Start positions (trackloader.cpp, LoadStartPositions, lines 947–995)

Entries are parsed from consecutively numbered `start position i` /
`start orientation i` keys until one is missing; the per-entry axis
swizzle and the historical fixer rotation are external quaternion code, so
the parsed list is taken as given.  When `data.reverse` is set the source
rotates every orientation in place with `Rotate(M_PI, 0, 0, 1)` — the
external `QUATERNION::Rotate` about the vertical axis `z` by 180° —
and then reverses the vector with `std::reverse`. -/

/-- One parsed start entry: position and orientation. -/
structure StartEntry (P Q : Type) where
  pos : P
  orient : Q

/-- The reversal tail of `LoadStartPositions` (lines 981–992): rotate each
orientation by the external 180° vertical-axis rotation `rotZ`, then
reverse the list; without reversal the parsed list is returned as is. -/
def loadStartPositions {P Q : Type} (rotZ : Q → Q)
    (entries : List (StartEntry P Q)) (reverse : Bool) :
    List (StartEntry P Q) :=
  if reverse then
    (entries.map (fun e => ⟨e.pos, rotZ e.orient⟩)).reverse
  else entries

end Vdrift

namespace Vdrift

/-- C4 counterexample: the claim says every out-of-range authored surface
index is replaced by `0` at parse time in the modern format; the authored
index `-1` against a table of one surface is out of range, yet
`LoadShape` keeps it (the source only tests `surface >= size`), and the
resulting table access is out of bounds. -/
theorem c4_counterexample :
    surfaceOutOfRange (-1) 1 ∧ modernSurfaceIndex (-1) 1 ≠ 0 ∧
      ¬ surfaceInBounds (modernSurfaceIndex (-1) 1) 1 := by
  refine ⟨?_, ?_, ?_⟩ <;> decide

/-- C4 (amended): in the modern format only the upper bound is enforced —
an authored index `≥ surfaces.size()` is replaced by `0`, and whenever the
authored index is nonnegative and the table is nonempty the resulting
access is in bounds; in the legacy format the asserted predicate itself is
exactly in-boundedness of the access. -/
theorem c4_surface_index_policy (a : Int) (n : Nat) :
    (a ≥ (n : Int) → modernSurfaceIndex a n = 0) ∧
      (0 ≤ a → 0 < n → surfaceInBounds (modernSurfaceIndex a n) n) ∧
      (legacySurfaceAssert a n → surfaceInBounds a n) := by
  refine ⟨fun h => ?_, fun ha hn => ?_, fun h => h⟩
  · simp [modernSurfaceIndex, h]
  · unfold modernSurfaceIndex surfaceInBounds
    split
    · exact ⟨le_refl 0, by exact_mod_cast hn⟩
    · exact ⟨ha, by omega⟩

/-- C4 witness: the amended theorem applied at the concrete inputs
`a = 5, n = 3` (clamped to `0`) and `a = 2, n = 3` (in bounds). -/
theorem c4_surface_index_policy_witness :
    modernSurfaceIndex 5 3 = 0 ∧ surfaceInBounds (modernSurfaceIndex 2 3) 3 :=
  ⟨(c4_surface_index_policy 5 3).1 (by decide),
   (c4_surface_index_policy 2 3).2.1 (by decide) (by decide)⟩

/-- C10: on a reversed track, `LoadLapSections` remaps the authored patch
index `p` (asserted `p < num_patches`) to `num_patches - p`; for every
authored index with `1 ≤ p < num_patches` the remapped index lies in
`[1, num_patches - 1]` and the patch vector access is in bounds. -/
theorem c10_reverse_patch_remap_in_bounds (p : Int) (n : Nat)
    (h1 : 1 ≤ p) (h2 : p < (n : Int)) :
    1 ≤ remapPatchId true p n ∧ remapPatchId true p n ≤ (n : Int) - 1 ∧
      patchInBounds (remapPatchId true p n) n := by
  unfold remapPatchId patchInBounds
  simp only [if_pos rfl]
  omega

/-- C10 witness: the remap applied at `p = 1` with a three-patch strip. -/
theorem c10_reverse_patch_remap_witness :
    1 ≤ remapPatchId true 1 3 ∧ remapPatchId true 1 3 ≤ (3 : Int) - 1 ∧
      patchInBounds (remapPatchId true 1 3) 3 :=
  c10_reverse_patch_remap_in_bounds 1 3 (by decide) (by decide)

/-- C8: a collision shape is built by `LoadBody` iff the section has a
`mass` key, and when the key is absent the body is non-collidable and
`LoadNode` creates no physics collision object for it. -/
theorem c8_mass_presence_gates_collision (sec : BodySection) :
    ((loadBody sec).shapeBuilt = true ↔ sec.hasMass = true) ∧
      (sec.hasMass = false →
        (loadBody sec).collidable = false ∧
          loadNodeMakesCollision (loadBody sec) = false) := by
  unfold loadBody loadNodeMakesCollision
  refine ⟨Iff.rfl, fun h => ⟨h, ?_⟩⟩
  simp [h]

/-- C8 witness: a section without a `mass` key yields a non-collidable
body with no shape and no collision object. -/
theorem c8_mass_presence_witness :
    ((loadBody ⟨false, 5⟩).shapeBuilt = true ↔ (false : Bool) = true) ∧
      (loadBody ⟨false, 5⟩).collidable = false ∧
        loadNodeMakesCollision (loadBody ⟨false, 5⟩) = false :=
  ⟨(c8_mass_presence_gates_collision ⟨false, 5⟩).1,
   (c8_mass_presence_gates_collision ⟨false, 5⟩).2 rfl⟩

/-- C1 counterexample: with every stream opening except the roads file,
`BeginLoad` reports the road failure yet still returns success — the
failure is not fatal, contradicting the claim that the whole load is
aborted. -/
theorem c1_counterexample :
    (beginLoad roadsFailEnv).ok = true ∧
      LogMsg.roadError ∈ (beginLoad roadsFailEnv).log := by
  decide

/-- C1 (amended): when the roads file stream cannot be opened the failure
is reported and `data.roads` is cleared, but loading continues: the
outcome of `BeginLoad` is exactly what it would be with an openable roads
file (it only depends on the track config opening and `BeginObjectLoad`)
— the same recoverable policy as a missing surfaces file. -/
theorem c1_roads_failure_recoverable (env : LoadEnv)
    (h : env.roadsOpen = false) :
    LogMsg.roadError ∈ (beginLoad env).log ∧
      (beginLoad env).roadsCleared = true ∧
      (beginLoad env).ok = (env.trackCfgOpen && env.beginObjectOk) ∧
      ((beginLoad env).ok ↔ (beginLoad { env with roadsOpen := true }).ok) := by
  obtain ⟨s, r, t, b⟩ := env
  cases h
  cases s <;> cases t <;> cases b <;> decide

/-- C1 witness: the amended theorem at the concrete environment where only
the roads stream fails. -/
theorem c1_roads_failure_witness :
    LogMsg.roadError ∈ (beginLoad roadsFailEnv).log ∧
      (beginLoad roadsFailEnv).roadsCleared = true ∧
      (beginLoad roadsFailEnv).ok =
        (roadsFailEnv.trackCfgOpen && roadsFailEnv.beginObjectOk) ∧
      ((beginLoad roadsFailEnv).ok ↔
        (beginLoad { roadsFailEnv with roadsOpen := true }).ok) :=
  c1_roads_failure_recoverable roadsFailEnv rfl

/-- C2 counterexample: a legacy list file declaring `14` fields — at least
the minimum `min_params = 14` — is rejected by `BeginOld`, because the
source compares the declared count with `expected_params = 17` for
equality and never consults `min_params`. -/
theorem c2_counterexample :
    min_params ≤ parseIntToken "14" 17 ∧ (beginOld ["14"] 17).1 = false := by
  constructor
  · decide
  · decide

/-- C2 (amended): `BeginOld` accepts the header iff the declared field
count parses to exactly `expected_params = 17` (`min_params = 14` is
initialized but never consulted); the trailing-fields discard loop of
`ContinueOld` reads `params_per_object - expected_params` extra tokens per
record, which is `0` for any accepted header. -/
theorem c2_legacy_header_policy (tok : String) (rest : List String) :
    ((beginOld (tok :: rest) 17).1 = true ↔
        parseIntToken tok 17 = expected_params) ∧
      ((beginOld (tok :: rest) 17).1 = true →
        discardCount (beginOld (tok :: rest) 17).2 = 0) ∧
      (∀ p : Int, recordTailLen p = 16 + discardCount p) := by
  refine ⟨?_, ?_, fun p => rfl⟩
  · by_cases h : parseIntToken tok 17 = expected_params <;>
      simp [beginOld, getToken, h]
  · intro hacc
    by_cases h : parseIntToken tok 17 = expected_params
    · have h2 : (beginOld (tok :: rest) 17).2 = parseIntToken tok 17 := by
        simp [beginOld, getToken, h]
      rw [h2, h]
      decide
    · exfalso
      simp [beginOld, getToken, h] at hacc

/-- C2 witness: the amended theorem at a header token `"17"`, which is
accepted with zero trailing fields to discard. -/
theorem c2_legacy_header_witness :
    (beginOld ["17"] 17).1 = true ∧ discardCount (beginOld ["17"] 17).2 = 0 :=
  ⟨((c2_legacy_header_policy "17" []).1).mpr (by decide),
   (c2_legacy_header_policy "17" []).2.1
     (((c2_legacy_header_policy "17" []).1).mpr (by decide))⟩

/-- Driving `Continue` over the node list processes every node once when
`LoadNode` succeeds on each. -/
theorem continueRun_all {α : Type} (loadNode : α → Bool) :
    ∀ nodes : List α, (∀ n ∈ nodes, loadNode n = true) →
      continueRun loadNode nodes = (nodes.length, false) := by
  intro nodes h
  induction nodes with
  | nil => rfl
  | cons n ts ih =>
    have hn : loadNode n = true := h n (List.mem_cons_self n ts)
    have ht : ∀ m ∈ ts, loadNode m = true :=
      fun m hm => h m (List.mem_cons_of_mem n hm)
    simp [continueRun, hn, ih ht]

/-- With the accepted field count `17`, the repeated `ContinueOld` drive
consumes records exactly as the `CalculateNumOld` pre-scan counts them. -/
theorem legacySteps_eq_countRecords :
    ∀ (n : Nat) (f : List String), f.length ≤ n →
      legacySteps f 17 = countRecords f 17 := by
  intro n
  induction n with
  | zero =>
    intro f hf
    have hf0 : f = [] := List.eq_nil_of_length_eq_zero (Nat.le_zero.mp hf)
    subst hf0
    simp [legacySteps, countRecords]
  | succ n ih =>
    intro f hf
    match f with
    | [] => simp [legacySteps, countRecords]
    | t :: ts =>
      simp only [legacySteps, countRecords]
      have hdrop : recordTailLen 17 = ((17 : Int) - 1).toNat := by decide
      rw [hdrop]
      congr 1
      apply ih
      have := List.length_cons t ts ▸ hf
      simp only [List.length_drop]
      omega

/-- C7: invoking the continuation until it signals no-more-work processes
exactly the number of objects in the active source, each exactly once —
for the modern format the number of tree nodes (given each node loads),
for the legacy format the count obtained by the `CalculateNumOld`
pre-scan of the list file (given the accepted header `17`). -/
theorem c7_continuation_processes_each_once {α : Type}
    (nodes : List α) (loadNode : α → Bool)
    (hok : ∀ n ∈ nodes, loadNode n = true)
    (hdr : String) (ts : List String) (hhdr : parseIntToken hdr 0 = 17) :
    continueRun loadNode nodes = (nodes.length, false) ∧
      legacySteps ts 17 = calculateNumOld (hdr :: ts) := by
  constructor
  · exact continueRun_all loadNode nodes hok
  · have hcalc : calculateNumOld (hdr :: ts) = countRecords ts (parseIntToken hdr 0) := rfl
    rw [hcalc, hhdr]
    exact legacySteps_eq_countRecords ts.length ts (le_refl _)

/-- C7 witness: three modern nodes that all load, and a legacy stream of
two one-token records under an accepted header. -/
theorem c7_continuation_witness :
    continueRun (fun _ : Nat => true) [1, 2, 3] = ([1, 2, 3].length, false) ∧
      legacySteps ["m", "a"] 17 = calculateNumOld ("17" :: ["m", "a"]) :=
  c7_continuation_processes_each_once [1, 2, 3] (fun _ => true)
    (fun _ _ => rfl) "17" ["m", "a"] (by decide)

/-- If following the successor links from `c` reaches the lap-zero patch
within `m` steps, the walk with at least `m` fuel ends at the lap-zero
patch, assigning at most `m` distances. -/
theorem lapWalk_ring_stops {N : Nat} (next : Fin N → Option (Fin N))
    (len : Fin N → ℚ) (start : Fin N) :
    ∀ (m : Nat) (c : Option (Fin N)) (total : ℚ) (fuel : Nat),
      nextIter next c m = some start → m ≤ fuel →
      (lapWalk next len start fuel c total).2 = some start ∧
        (lapWalk next len start fuel c total).1.length ≤ m := by
  intro m
  induction m with
  | zero =>
    intro c total fuel h _
    have hc : c = some start := by simpa [nextIter] using h
    subst hc
    cases fuel with
    | zero => exact ⟨rfl, Nat.le_refl 0⟩
    | succ fl => refine ⟨?_, ?_⟩ <;> simp [lapWalk]
  | succ m ih =>
    intro c total fuel h hfuel
    cases fuel with
    | zero => omega
    | succ fl =>
      cases c with
      | none => simp [nextIter] at h
      | some i =>
        by_cases hi : i = start
        · subst hi
          refine ⟨?_, ?_⟩ <;> simp [lapWalk]
        · have h2 : nextIter next (next i) m = some start := h
          obtain ⟨ih1, ih2⟩ :=
            ih (next i) (total + len i) fl h2 (Nat.succ_le_succ_iff.mp hfuel)
          refine ⟨?_, ?_⟩
          · simpa [lapWalk, hi] using ih1
          · simp only [lapWalk, if_neg hi, List.length_cons]
            omega

/-- The distances assigned by the walk are non-decreasing when patch
lengths are nonnegative, below any lower bound on the entry total. -/
theorem lapWalk_chain {N : Nat} (next : Fin N → Option (Fin N))
    (len : Fin N → ℚ) (start : Fin N) (hlen : ∀ i, 0 ≤ len i) :
    ∀ (fuel : Nat) (c : Option (Fin N)) (total x : ℚ), x ≤ total →
      List.Chain' (· ≤ ·) (x :: (lapWalk next len start fuel c total).1) := by
  intro fuel
  induction fuel with
  | zero => intro c total x hx; simp [lapWalk]
  | succ fl ih =>
    intro c total x hx
    cases c with
    | none => simp [lapWalk]
    | some i =>
      by_cases hi : i = start
      · simp [lapWalk, hi]
      · simp only [lapWalk, if_neg hi]
        exact List.chain'_cons.mpr
          ⟨hx, ih (next i) (total + len i) total
            (le_add_of_nonneg_right (hlen i))⟩

/-- C3: over a patch ring — following `next_patch` from the lap-zero patch
returns to it within the strip's `N` patches — the distance-accumulation
walk of `LoadLapSections` stops because the successor revisits the
lap-zero patch, assigns at most `N` `dist_from_start` values, and those
values (starting from the lap-zero patch's `0`) are non-decreasing when
patch lengths are nonnegative. -/
theorem c3_lap_ring_walk {N : Nat} (next : Fin N → Option (Fin N))
    (len : Fin N → ℚ) (start : Fin N) (k : Nat)
    (hk1 : 1 ≤ k) (hkN : k ≤ N)
    (hring : nextIter next (some start) k = some start)
    (hlen : ∀ i, 0 ≤ len i) :
    (lapDistances next len start).2 = some start ∧
      (lapDistances next len start).1.length ≤ N ∧
      List.Chain' (· ≤ ·) (lapDistances next len start).1 := by
  obtain ⟨k', rfl⟩ : ∃ k', k = k' + 1 := ⟨k - 1, by omega⟩
  have hring2 : nextIter next (next start) k' = some start := hring
  obtain ⟨h1, h2⟩ := lapWalk_ring_stops next len start k' (next start)
    (len start) N hring2 (by omega)
  refine ⟨h1, ?_, ?_⟩
  · show ((0 : ℚ) ::
      (lapWalk next len start N (next start) (len start)).1).length ≤ N
    simp only [List.length_cons]
    omega
  · exact lapWalk_chain next len start hlen N (next start) (len start) 0
      (hlen start)

/-- C3 witness: the two-patch ring with unit lengths. -/
theorem c3_lap_ring_walk_witness :
    (lapDistances ringNextTwo ringLenTwo 0).2 = some 0 ∧
      (lapDistances ringNextTwo ringLenTwo 0).1.length ≤ 2 ∧
      List.Chain' (· ≤ ·) (lapDistances ringNextTwo ringLenTwo 0).1 :=
  c3_lap_ring_walk ringNextTwo ringLenTwo 0 2 (by decide) (by decide)
    (by decide) (fun i => by norm_num [ringLenTwo])

/-- C5 (code bug): on a mesh whose vertex coordinates are all negative —
here the single vertex `(-1, -2, -3)` — the `max` computed by
`GenerateMeshMetrics` is not the componentwise maximum of the vertex
positions: the scan initializes the running maximum with
`std::numeric_limits<float>::min()`, the smallest positive normal float,
rather than the lowest float, so every negative coordinate loses the
`v > maxv` comparison and `max` stays at `FLT_MIN`; consequently
`GetSize` is wrong too (a one-vertex mesh should have size `0`). -/
theorem c5_mesh_metrics_divergence :
    specVertexMax [badVertex] = some badVertex ∧
      (generateMeshMetrics [badVertex]).2 = ⟨flt_min, flt_min, flt_min⟩ ∧
      (generateMeshMetrics [badVertex]).2 ≠ badVertex ∧
      (generateMeshMetrics [badVertex]).1 = badVertex ∧
      (getSize (generateMeshMetrics [badVertex])).x ≠ 0 := by
  refine ⟨rfl, ?_, ?_, ?_, ?_⟩ <;>
    norm_num [generateMeshMetrics, metricsStep, flt_min, flt_max, badVertex,
      getSize, Vec3.mk.injEq]

/-- At a key other than the incoming texture the combining map is
unchanged. -/
theorem combineStep_ne (cget : String → Bool) (csize : String → Nat)
    (m : String → Option (Nat × Bool)) (tex k : String) (nv : Nat)
    (hk : k ≠ tex) :
    combineStep cget csize m tex nv k = m k := by
  unfold combineStep
  cases hm : m tex with
  | none => simp [hk]
  | some e =>
    obtain ⟨c, b⟩ := e
    cases b <;> simp [hk]

/-- Once the map holds an uncached entry for the key, every further
object with that key merges additively into it. -/
theorem combine_accum (cget : String → Bool) (csize : String → Nat)
    (k : String) :
    ∀ (objs : List (String × Nat)) (m : String → Option (Nat × Bool)) (c : Nat),
      m k = some (c, false) →
      (objs.foldl (fun mm o => combineStep cget csize mm o.1 o.2) m) k =
        some (c + sumVertsFor k objs, false) := by
  intro objs
  induction objs with
  | nil => intro m c hm; simpa [sumVertsFor] using hm
  | cons o rest ih =>
    intro m c hm
    obtain ⟨t, nv⟩ := o
    by_cases ht : t = k
    · rcases ht with rfl
      have hstep : combineStep cget csize m t nv t = some (c + nv, false) := by
        unfold combineStep
        rw [hm]
        simp
      rw [List.foldl_cons]
      rw [ih (combineStep cget csize m t nv) (c + nv) hstep]
      have hsum : sumVertsFor t ((t, nv) :: rest) = nv + sumVertsFor t rest := by
        simp [sumVertsFor, List.filter_cons]
      rw [hsum, ← Nat.add_assoc]
    · rw [List.foldl_cons]
      have hstep : combineStep cget csize m t nv k = m k :=
        combineStep_ne cget csize m t k nv (fun he => ht he.symm)
      rw [ih (combineStep cget csize m t nv) c (by rw [hstep]; exact hm)]
      simp [sumVertsFor, List.filter_cons, ht]

/-- Starting from a map without the key, feeding the objects through the
combining map accumulates the key's total vertex count, provided the
content cache never hits for that key and at least one object carries it. -/
theorem combine_from_none (cget : String → Bool) (csize : String → Nat)
    (k : String) (hk : cget k = false) :
    ∀ (objs : List (String × Nat)) (m : String → Option (Nat × Bool)),
      m k = none → objs.filter (fun o => o.1 = k) ≠ [] →
      (objs.foldl (fun mm o => combineStep cget csize mm o.1 o.2) m) k =
        some (sumVertsFor k objs, false) := by
  intro objs
  induction objs with
  | nil => intro m _ hne; exact absurd rfl hne
  | cons o rest ih =>
    intro m hm hne
    obtain ⟨t, nv⟩ := o
    by_cases ht : t = k
    · rcases ht with rfl
      have hstep : combineStep cget csize m t nv t = some (nv, false) := by
        unfold combineStep
        rw [hm]
        simp [hk]
      rw [List.foldl_cons]
      rw [combine_accum cget csize t rest (combineStep cget csize m t nv) nv hstep]
      simp [sumVertsFor, List.filter_cons]
    · have hsum : sumVertsFor k ((t, nv) :: rest) = sumVertsFor k rest := by
        simp [sumVertsFor, List.filter_cons, ht]
      rw [List.foldl_cons, hsum]
      apply ih
      · rw [combineStep_ne cget csize m t k nv (fun he => ht he.symm)]
        exact hm
      · simpa [List.filter_cons, ht] using hne

/-- C6: under aggressive combining, when no cached mesh exists for a
texture key, the combined entry produced for that key holds exactly the
sum of the constituent objects' vertex counts (additive concatenation, no
deduplication); and once the stored entry is cached, an incoming object
does not merge — the stored count is replaced independently of the old
one. -/
theorem c6_combining_additive (cget : String → Bool) (csize : String → Nat)
    (objs : List (String × Nat)) (k : String)
    (hk : cget k = false)
    (hne : objs.filter (fun o => o.1 = k) ≠ []) :
    combineRun cget csize objs k = some (sumVertsFor k objs, false) ∧
      (∀ (m : String → Option (Nat × Bool)) (c nv : Nat),
        m k = some (c, true) →
        combineStep cget csize m k nv k = some (nv, false)) := by
  constructor
  · exact combine_from_none cget csize k hk objs (fun _ => none) rfl hne
  · intro m c nv hm
    unfold combineStep
    rw [hm]
    simp [hk]

/-- C6 witness: two objects sharing texture key `"a"` with 2 and 3
vertices combine to 5, with no cache hit. -/
theorem c6_combining_witness :
    combineRun (fun _ => false) (fun _ => 0) [("a", 2), ("a", 3)] "a" =
      some (sumVertsFor "a" [("a", 2), ("a", 3)], false) :=
  (c6_combining_additive (fun _ => false) (fun _ => 0)
    [("a", 2), ("a", 3)] "a" rfl (by decide)).1

/-- C9: loading with reversal requested produces the reversal of the list
produced without reversal, with each entry's position unchanged and each
entry's orientation transformed by the source's
`Rotate(M_PI, 0, 0, 1)` — the 180° rotation about the vertical axis. -/
theorem c9_reverse_start_positions {P Q : Type} (rotZ : Q → Q)
    (entries : List (StartEntry P Q)) :
    (loadStartPositions rotZ entries true).length =
      (loadStartPositions rotZ entries false).length ∧
      ∀ (i : Nat) (h : i < (loadStartPositions rotZ entries true).length)
        (h2 : (loadStartPositions rotZ entries false).length - 1 - i <
          (loadStartPositions rotZ entries false).length),
        ((loadStartPositions rotZ entries true).get ⟨i, h⟩).pos =
          ((loadStartPositions rotZ entries false).get
            ⟨(loadStartPositions rotZ entries false).length - 1 - i, h2⟩).pos ∧
        ((loadStartPositions rotZ entries true).get ⟨i, h⟩).orient =
          rotZ (((loadStartPositions rotZ entries false).get
            ⟨(loadStartPositions rotZ entries false).length - 1 - i, h2⟩).orient) := by
  have hT : loadStartPositions rotZ entries true =
      (entries.map (fun e => StartEntry.mk e.pos (rotZ e.orient))).reverse := rfl
  have hF : loadStartPositions rotZ entries false = entries := rfl
  rw [hT, hF]
  refine ⟨by simp, ?_⟩
  intro i h h2
  constructor <;>
    simp only [List.get_eq_getElem, List.getElem_reverse, List.getElem_map,
      List.length_map]

/-- C9 witness: two entries with integer positions and orientations,
`rotZ` modelled by negation, applied at index `0`. -/
theorem c9_reverse_start_positions_witness :
    ((loadStartPositions (fun q : Int => -q)
        [⟨(1 : Int), (10 : Int)⟩, ⟨2, 20⟩] true).get
      ⟨0, by decide⟩).pos =
      ((loadStartPositions (fun q : Int => -q)
          [⟨(1 : Int), (10 : Int)⟩, ⟨2, 20⟩] false).get
        ⟨1, by decide⟩).pos ∧
    ((loadStartPositions (fun q : Int => -q)
        [⟨(1 : Int), (10 : Int)⟩, ⟨2, 20⟩] true).get
      ⟨0, by decide⟩).orient =
      -(((loadStartPositions (fun q : Int => -q)
          [⟨(1 : Int), (10 : Int)⟩, ⟨2, 20⟩] false).get
        ⟨1, by decide⟩).orient) :=
  (c9_reverse_start_positions (fun q : Int => -q)
    [⟨(1 : Int), (10 : Int)⟩, ⟨2, 20⟩]).2 0 (by decide) (by decide)

end Vdrift
